import Mathlib

/-!
Verification development for the AssetRipperServer task queue and process
supervision subsystem.  The definitions below are a shallow embedding of
`app/core/task_queue.py`, `app/core/assetripper.py`, `app/utils/file_utils.py`
and the `Task` model of `app/models.py`.  Timestamps (`datetime.utcnow()`) are
modelled as abstract `Nat` ticks supplied by the environment; the SQL store is
a list of task rows, with `UPDATE ... WHERE id = :tid` modelled as a guarded
map over the rows.
-/

namespace AssetRipperServer

/-- Task status constants, from `app/schemas.py` (`TaskStatus`). -/
inductive TaskStatus
  | PENDING
  | PROCESSING
  | COMPLETED
  | FAILED
deriving DecidableEq, Repr

/-- The operation a worker HTTP call belongs to, used to tag exception
messages ("LoadFile ..." versus "Export ..."). -/
inductive WorkerOp
  | loadOp
  | exportOp
deriving DecidableEq, Repr

/-- The distinct exception values raised by `AssetRipperManager`'s request
methods in `app/core/assetripper.py`.  Constructors record both the Python
exception class and the message content of each raise site:
`connClientNotInitialized` ("AssetRipper client not initialized") and
`connRequestFailed` ("{op} request failed: ...") are
`AssetRipperConnectionError`; `baseTimeout` ("{op} timeout: ...") and
`baseStatus` ("{op} failed with status {code}: ...") are the plain base
`AssetRipperError` class, with the status code embedded in the message. -/
inductive ARError
  | connClientNotInitialized
  | connRequestFailed (op : WorkerOp)
  | baseTimeout (op : WorkerOp)
  | baseStatus (op : WorkerOp) (code : Nat)
deriving DecidableEq, Repr

/-- Structured content of the error-message strings the queue code writes into
`Task.error_message`.  Each constructor records one distinct message produced
by `task_queue.py`, with its variable parts as arguments:
`recovery` is "Interrupted by container restart" (from
`_recover_interrupted_tasks`); `assetRipperFault` is "AssetRipper error: {e}";
`uploadMissing` is "Unexpected error: Upload file not found: {path}";
`assetsMissing` is "Unexpected error: Assets directory not found after
export: {dir}". -/
inductive ErrMsg
  | recovery
  | assetRipperFault (e : ARError)
  | uploadMissing (path : String)
  | assetsMissing
deriving DecidableEq, Repr

/-- A task row, from the `Task` ORM model in `app/models.py`.  Paths that the
pipeline decomposes (the export tree) are kept as component lists; the upload
path is only ever tested for existence and is kept opaque. -/
structure Task where
  id : String
  status : TaskStatus
  created_at : Nat
  started_at : Option Nat
  completed_at : Option Nat
  original_filename : String
  upload_path : String
  file_size_bytes : Nat
  file_hash : Option String
  export_path : Option (List String)
  export_size_bytes : Option Nat
  error_message : Option ErrMsg
  retry_count : Nat
  user_ip : Option String
deriving DecidableEq, Repr

/-- The task store: the persisted `tasks` table as a list of rows. -/
abbrev Store := List Task

/-- Row lookup: `SELECT ... WHERE Task.id == task_id` followed by
`scalar_one_or_none()`. -/
def find_task (store : Store) (task_id : String) : Option Task :=
  store.find? (fun t => t.id == task_id)

/-- Keyed row update, `UPDATE tasks SET <f> WHERE id = :task_id`: apply `f` to every row whose
id matches, leave every other row untouched. -/
def update_where (store : Store) (task_id : String) (f : Task → Task) : Store :=
  store.map (fun t => if t.id == task_id then f t else t)

/-! ## Crash recovery (`TaskQueueManager._recover_interrupted_tasks`) -/

/-- The row mutation `_recover_interrupted_tasks` applies to each task it
selected with `status == PROCESSING`; rows in any other status are not
selected and therefore unchanged. -/
def recoverTask (now : Nat) (t : Task) : Task :=
  if t.status = TaskStatus.PROCESSING then
    { t with
      status := TaskStatus.FAILED
      completed_at := some now
      error_message := some ErrMsg.recovery }
  else t

/-- Crash recovery, `_recover_interrupted_tasks`: select all PROCESSING rows, mark each
FAILED with completed_at set and the fixed recovery message, commit. -/
def recover_interrupted_tasks (now : Nat) (store : Store) : Store :=
  store.map (recoverTask now)

/-- Startup, `TaskQueueManager.start()`: launches the dispatch loop (no store effect)
and then awaits `_recover_interrupted_tasks`; its effect on the store is
exactly the recovery sweep. -/
def queue_start (now : Nat) (store : Store) : Store :=
  recover_interrupted_tasks now store

/-! ## Process supervisor (`app/core/assetripper.py`) -/

/-- Outcome of one `httpx` request against the worker, as distinguished by the
exception handlers at the call sites: the worker answered with a status code,
the request timed out (`httpx.TimeoutException`), or a transport-level error
occurred (`httpx.RequestError`, e.g. connection refused). -/
inductive HttpOutcome
  | status (code : Nat)
  | timeout
  | requestError
deriving DecidableEq, Repr

/-- Success test of `httpx.Response.raise_for_status`: it raises `HTTPStatusError` exactly when the
response is not a success, i.e. the status code is outside 2xx. -/
def is2xx (code : Nat) : Bool :=
  200 ≤ code && code < 300

/-- Load call, `AssetRipperManager.load_file`: raises `AssetRipperConnectionError` when
the client is not initialized or on `httpx.RequestError`; raises the base
`AssetRipperError` with a "LoadFile timeout" message on timeout and with a
"LoadFile failed with status {code}" message on a non-2xx response; returns
normally on 2xx.  `clientInit` models `self.client is not None`. -/
def load_file (clientInit : Bool) (outcome : HttpOutcome) : Except ARError Unit :=
  if !clientInit then
    Except.error ARError.connClientNotInitialized
  else
    match outcome with
    | HttpOutcome.status code =>
        if is2xx code then Except.ok ()
        else Except.error (ARError.baseStatus WorkerOp.loadOp code)
    | HttpOutcome.timeout => Except.error (ARError.baseTimeout WorkerOp.loadOp)
    | HttpOutcome.requestError => Except.error (ARError.connRequestFailed WorkerOp.loadOp)

/-- Export call, `AssetRipperManager.export_primary_content`: identical fault structure to
`load_file` with the export-tagged messages and its own (longer) timeout; the
`mkdir(parents=True, exist_ok=True)` on the export directory has no effect on
the task store and is not modelled. -/
def export_primary_content (clientInit : Bool) (outcome : HttpOutcome) : Except ARError Unit :=
  if !clientInit then
    Except.error ARError.connClientNotInitialized
  else
    match outcome with
    | HttpOutcome.status code =>
        if is2xx code then Except.ok ()
        else Except.error (ARError.baseStatus WorkerOp.exportOp code)
    | HttpOutcome.timeout => Except.error (ARError.baseTimeout WorkerOp.exportOp)
    | HttpOutcome.requestError => Except.error (ARError.connRequestFailed WorkerOp.exportOp)

/-- Reset call, `AssetRipperManager.reset`: raises `AssetRipperConnectionError` when the
client is not initialized; otherwise the whole HTTP call sits in a
`try/except Exception` that logs and swallows every failure, so it returns
normally whatever the outcome of `POST /Reset` was. -/
def reset (clientInit : Bool) (outcome : HttpOutcome) : Except ARError Unit :=
  if !clientInit then
    Except.error ARError.connClientNotInitialized
  else
    match outcome with
    | _ => Except.ok ()

/-- One iteration of `AssetRipperManager._health_check_loop` after the sleep.
`ext` is `self._use_external_host`; `procAlive` is whether
`self.process` exists with `returncode is None` (only consulted in
self-managed mode); `out` is the probe outcome of `GET /` with its 5 s
timeout.  The result is the pair (new `_is_healthy` flag, whether
`_attempt_restart` was invoked this iteration).  Note the raise sites: a
response with a status other than 200 sets the flag unhealthy but does NOT
invoke `_attempt_restart`; only the `RequestError`/`TimeoutException` handler
(and the dead-process branch) does, and then only in self-managed mode. -/
def health_iter (ext : Bool) (procAlive : Bool) (out : HttpOutcome) : Bool × Bool :=
  if !ext && !procAlive then
    (false, true)
  else
    match out with
    | HttpOutcome.status code =>
        if code = 200 then (true, false) else (false, false)
    | HttpOutcome.timeout => (false, if ext then false else true)
    | HttpOutcome.requestError => (false, if ext then false else true)

/-- The restart budget `self._max_restarts` from `AssetRipperManager.__init__`. -/
def max_restarts : Nat := 5

/-- One call to `AssetRipperManager._attempt_restart`, acting on the
consecutive-restart counter `self._restart_count`.  `success` says whether the
stop/sleep/start cycle completed without an exception.  Returns the new
counter and, when an attempt was actually made, `some d` where `d` is the
backoff delay `2 ** self._restart_count` slept before the restart (the counter
having just been incremented).  When the counter has reached `max_restarts`
the call gives up without attempting anything. -/
def attempt_restart (count : Nat) (success : Bool) : Nat × Option Nat :=
  if max_restarts ≤ count then
    (count, none)
  else
    let c := count + 1
    if success then (0, some (2 ^ c)) else (c, some (2 ^ c))

/-- Drive `attempt_restart` through `k` consecutive health-check failures
whose restart attempts all fail (so the counter is never reset), starting
from counter value `count`.  Returns the final counter and the list of
backoff delays of the attempts actually made, in order. -/
def run_failures : Nat → Nat → Nat × List Nat
  | count, 0 => (count, [])
  | count, k + 1 =>
      let step := attempt_restart count false
      let rest := run_failures step.1 k
      match step.2 with
      | some d => (rest.1, d :: rest.2)
      | none => (rest.1, rest.2)

/-! ## Filesystem model and `app/utils/file_utils.py` -/

/-- A regular file on disk: its path as a list of components, and its size
(`stat().st_size`). -/
structure FSFile where
  path : List String
  size : Nat
deriving DecidableEq, Repr

/-- The part of the filesystem the pipeline reads: the set of regular files
(`is_file()` true) in the export area.  Directories are implied; the
existence check on the Assets directory is carried separately in the
environment because an empty directory is not represented here. -/
abbrev FileSystem := List FSFile

/-- Whether a file path lies strictly under a directory path, mirroring what
`directory.rglob("*")` enumerates: every entry whose path properly extends
the directory's path. -/
def isUnder : List String → List String → Bool
  | [], filePath => !filePath.isEmpty
  | _ :: _, [] => false
  | d :: ds, c :: cs => d == c && isUnder ds cs

/-- Recursive size, `get_directory_size` from `app/utils/file_utils.py`: iterate
`directory.rglob("*")`, keep regular files, and accumulate their sizes into
`total_size` starting from 0. -/
def get_directory_size (fs : FileSystem) (dir : List String) : Nat :=
  (fs.filter (fun f => isUnder dir f.path)).foldl (fun acc f => acc + f.size) 0

/-- Export directory of a task, `get_task_export_dir`:
`settings.export_dir / task_id`. -/
def get_task_export_dir (exportRoot : List String) (task_id : String) : List String :=
  exportRoot ++ [task_id]

/-- Assets directory of a task, `get_task_assets_dir`:
`get_task_export_dir(task_id) / "Assets"`. -/
def get_task_assets_dir (exportRoot : List String) (task_id : String) : List String :=
  get_task_export_dir exportRoot task_id ++ ["Assets"]

/-! ## Processing pipeline (`TaskQueueManager._process_task`) -/

/-- The environment one invocation of `_process_task` runs against: the two
`datetime.utcnow()` ticks (at the PROCESSING write and at the terminal
write), the result of the `upload_path.exists()` check, whether the
supervisor's HTTP client is initialized, the outcomes of the LoadFile,
Export and Reset calls, the state of the export tree after the export call,
and the result of the `assets_dir.exists()` check. -/
structure PipelineEnv where
  tStart : Nat
  tEnd : Nat
  uploadExists : Bool
  clientInit : Bool
  loadOutcome : HttpOutcome
  exportOutcome : HttpOutcome
  assetsDirExists : Bool
  fs : FileSystem
  resetOutcome : HttpOutcome
deriving DecidableEq, Repr

/-- Failure write, `TaskQueueManager._mark_task_failed`: a single
`UPDATE tasks SET status=FAILED, completed_at=now, error_message=msg
WHERE id = :task_id`. -/
def mark_task_failed (store : Store) (task_id : String) (msg : ErrMsg) (now : Nat) : Store :=
  update_where store task_id (fun t =>
    { t with
      status := TaskStatus.FAILED
      completed_at := some now
      error_message := some msg })

/-- The PROCESSING transition at the head of `_process_task`: set status and
started_at on the selected row and commit. -/
def set_processing (store : Store) (task_id : String) (tStart : Nat) : Store :=
  update_where store task_id (fun t =>
    { t with
      status := TaskStatus.PROCESSING
      started_at := some tStart })

/-- The COMPLETED write at the end of `_process_task`: one
`UPDATE ... WHERE id = :task_id` setting status, completed_at, export_path,
export_size_bytes and clearing error_message. -/
def complete_task (store : Store) (task_id : String) (tEnd : Nat)
    (exportPath : List String) (size : Nat) : Store :=
  update_where store task_id (fun t =>
    { t with
      status := TaskStatus.COMPLETED
      completed_at := some tEnd
      export_path := some exportPath
      export_size_bytes := some size
      error_message := none })

/-- Pipeline, `TaskQueueManager._process_task`, as a store transformer.  The flow of the
source: look the task up; a missing row or a row whose status is not PENDING
is logged and skipped with no store write.  Otherwise write the PROCESSING
transition, then run the steps; a missing upload file raises
`FileNotFoundError` (caught by the generic handler), a load or export fault
is caught as `AssetRipperError`, a missing Assets directory raises
`FileNotFoundError`; every caught fault drives `_mark_task_failed`.  On
success the best-effort reset is called (its failure is swallowed and has no
store effect) and the COMPLETED row is written with the recursive directory
size of the Assets tree. -/
def process_task (exportRoot : List String) (env : PipelineEnv)
    (store : Store) (task_id : String) : Store :=
  match find_task store task_id with
  | none => store
  | some task =>
    if task.status ≠ TaskStatus.PENDING then
      store
    else
      let store1 := set_processing store task_id env.tStart
      if !env.uploadExists then
        mark_task_failed store1 task_id (ErrMsg.uploadMissing task.upload_path) env.tEnd
      else
        match load_file env.clientInit env.loadOutcome with
        | Except.error e =>
            mark_task_failed store1 task_id (ErrMsg.assetRipperFault e) env.tEnd
        | Except.ok _ =>
          match export_primary_content env.clientInit env.exportOutcome with
          | Except.error e =>
              mark_task_failed store1 task_id (ErrMsg.assetRipperFault e) env.tEnd
          | Except.ok _ =>
            if !env.assetsDirExists then
              mark_task_failed store1 task_id ErrMsg.assetsMissing env.tEnd
            else
              let assetsDir := get_task_assets_dir exportRoot task_id
              let size := get_directory_size env.fs assetsDir
              complete_task store1 task_id env.tEnd assetsDir size

/-! ## Queue manager state (`TaskQueueManager`) -/

/-- The in-memory state of `TaskQueueManager`: the `asyncio.Queue` contents
as a FIFO list, the `_running` flag, and `current_task_id`. -/
structure QueueState where
  queue : List String
  running : Bool
  current_task_id : Option String
deriving DecidableEq, Repr

/-- Enqueue, `TaskQueueManager.add_task`: `await self.queue.put(task_id)` on an
unbounded `asyncio.Queue` — an unconditional append to the tail; the method
consults neither `_running` nor anything else and has no failure path. -/
def add_task (s : QueueState) (task_id : String) : QueueState :=
  { s with queue := s.queue ++ [task_id] }

/-- Events of the dispatch loop's execution trace: the pipeline invocation
for a task begins (the loop has set `current_task_id` and entered
`_process_task`) or ends (the loop is back and has cleared it). -/
inductive QEvent
  | beginTask (task_id : String)
  | endTask (task_id : String)
deriving DecidableEq, Repr

/-- The trace of `TaskQueueManager._worker` consuming the queued entries in
FIFO order: each dequeued identifier produces its begin event, the store
effect of its full pipeline invocation, and its end event, strictly before
the next identifier is dequeued.  Each entry carries the environment its
invocation runs against. -/
def worker_trace (exportRoot : List String) (store : Store) :
    List (String × PipelineEnv) → List QEvent
  | [] => []
  | (task_id, env) :: rest =>
      QEvent.beginTask task_id ::
        QEvent.endTask task_id ::
          worker_trace exportRoot (process_task exportRoot env store task_id) rest

/-- Number of begin events in a trace. -/
def countBegins (tr : List QEvent) : Nat :=
  tr.countP (fun e => match e with | QEvent.beginTask _ => true | _ => false)

/-- Number of end events in a trace. -/
def countEnds (tr : List QEvent) : Nat :=
  tr.countP (fun e => match e with | QEvent.endTask _ => true | _ => false)

/-! ## Spec-side fault taxonomy (for the refinement claim about faults) -/

/-- Fault taxonomy of the specification (§7), modelled from the spec's words:
ConnectionFault (transport-level failure reaching the worker), ProcessFault
carrying the worker's failing status code, TimeoutFault (an operation
exceeded its budget).  Used only to compare the code's exception values
against the spec's classification. -/
inductive FaultKind
  | connectionFault
  | processFault (code : Nat)
  | timeoutFault
deriving DecidableEq, Repr

/-- Classification of the code's exception values under the spec's fault
taxonomy: the `AssetRipperConnectionError` raises are connection faults; the
base-class raise whose message records the worker's failing status is the
spec's process fault carrying that status; the base-class raise whose message
records a timeout is the spec's timeout fault. -/
def spec_fault_kind : ARError → FaultKind
  | ARError.connClientNotInitialized => FaultKind.connectionFault
  | ARError.connRequestFailed _ => FaultKind.connectionFault
  | ARError.baseTimeout _ => FaultKind.timeoutFault
  | ARError.baseStatus _ code => FaultKind.processFault code

/-! ## Store lemmas -/

/-- Mapping an id-preserving row function over the store commutes with the
lookup by id. -/
theorem find_task_map (g : Task → Task) (hg : ∀ t, (g t).id = t.id) (tid : String) :
    ∀ store : Store, find_task (store.map g) tid = (find_task store tid).map g
  | [] => rfl
  | t :: rest => by
      have ih := find_task_map g hg tid rest
      by_cases h : t.id = tid
      · have hb : (t.id == tid) = true := beq_iff_eq.mpr h
        have hb2 : ((g t).id == tid) = true := beq_iff_eq.mpr (by rw [hg t]; exact h)
        simp [find_task, List.find?_cons, hb, hb2]
      · have hb : (t.id == tid) = false := beq_eq_false_iff_ne.mpr h
        have hb2 : ((g t).id == tid) = false := beq_eq_false_iff_ne.mpr (by rw [hg t]; exact h)
        simpa [find_task, List.find?_cons, hb, hb2] using ih

/-- A successful lookup returns a row carrying the looked-up id. -/
theorem find_task_id (tid : String) (t : Task) :
    ∀ store : Store, find_task store tid = some t → (t.id == tid) = true
  | [], h => by simp [find_task] at h
  | r :: rest, h => by
      rw [find_task, List.find?_cons] at h
      cases hr : (r.id == tid) with
      | true =>
          simp only [hr] at h
          cases h
          exact hr
      | false =>
          simp only [hr] at h
          exact find_task_id tid t rest h

/-- Looking up the updated id after an `UPDATE ... WHERE id = :tid` sees the
updated row. -/
theorem find_task_update_where_self (store : Store) (tid : String) (f : Task → Task)
    (hf : ∀ t, (f t).id = t.id) :
    find_task (update_where store tid f) tid = (find_task store tid).map f := by
  have hg : ∀ t : Task, ((if t.id == tid then f t else t) : Task).id = t.id := by
    intro t
    by_cases h : t.id == tid <;> simp [h, hf t]
  have hmap := find_task_map (fun t => if t.id == tid then f t else t) hg tid store
  rw [update_where, hmap]
  cases hft : find_task store tid with
  | none => rfl
  | some t =>
      have hb : (t.id == tid) = true := find_task_id tid t store hft
      simp only [Option.map_some']
      rw [if_pos hb]

/-- An `UPDATE ... WHERE id = :tid2` leaves the lookup of any other id
unchanged. -/
theorem find_task_update_where_ne (store : Store) (tid tid2 : String)
    (hne : tid ≠ tid2) (f : Task → Task) (hf : ∀ t, (f t).id = t.id) :
    find_task (update_where store tid2 f) tid = find_task store tid := by
  have hg : ∀ t : Task, ((if t.id == tid2 then f t else t) : Task).id = t.id := by
    intro t
    by_cases h : t.id == tid2 <;> simp [h, hf t]
  have hmap := find_task_map (fun t => if t.id == tid2 then f t else t) hg tid store
  rw [update_where, hmap]
  cases hft : find_task store tid with
  | none => rfl
  | some t =>
      have hb : (t.id == tid) = true := find_task_id tid t store hft
      have ht : t.id = tid := beq_iff_eq.mp hb
      have hb2 : (t.id == tid2) = false := beq_eq_false_iff_ne.mpr (by rw [ht]; exact hne)
      simp only [Option.map_some']
      rw [if_neg (by simp [hb2])]

/-- Lookup after the PROCESSING write sees the stamped row. -/
theorem find_task_set_processing_self (store : Store) (tid : String) (ts : Nat) :
    find_task (set_processing store tid ts) tid =
      (find_task store tid).map (fun t =>
        { t with status := TaskStatus.PROCESSING, started_at := some ts }) :=
  find_task_update_where_self store tid _ (fun _ => rfl)

/-- Lookup after the COMPLETED write sees the completed row. -/
theorem find_task_complete_self (store : Store) (tid : String) (tEnd : Nat)
    (p : List String) (sz : Nat) :
    find_task (complete_task store tid tEnd p sz) tid =
      (find_task store tid).map (fun t =>
        { t with
          status := TaskStatus.COMPLETED
          completed_at := some tEnd
          export_path := some p
          export_size_bytes := some sz
          error_message := none }) :=
  find_task_update_where_self store tid _ (fun _ => rfl)

theorem find_task_set_processing_ne (store : Store) (tid tid2 : String)
    (hne : tid ≠ tid2) (ts : Nat) :
    find_task (set_processing store tid2 ts) tid = find_task store tid :=
  find_task_update_where_ne store tid tid2 hne _ (fun _ => rfl)

theorem find_task_mark_failed_ne (store : Store) (tid tid2 : String)
    (hne : tid ≠ tid2) (msg : ErrMsg) (now : Nat) :
    find_task (mark_task_failed store tid2 msg now) tid = find_task store tid :=
  find_task_update_where_ne store tid tid2 hne _ (fun _ => rfl)

theorem find_task_complete_ne (store : Store) (tid tid2 : String)
    (hne : tid ≠ tid2) (tEnd : Nat) (p : List String) (sz : Nat) :
    find_task (complete_task store tid2 tEnd p sz) tid = find_task store tid :=
  find_task_update_where_ne store tid tid2 hne _ (fun _ => rfl)

/-- A pipeline invocation targeted at one task id never changes what a lookup
of a different id sees. -/
theorem process_task_frame (exportRoot : List String) (env : PipelineEnv)
    (store : Store) (tid tid2 : String) (hne : tid ≠ tid2) :
    find_task (process_task exportRoot env store tid2) tid = find_task store tid := by
  unfold process_task
  cases hf : find_task store tid2 with
  | none => rfl
  | some task =>
      by_cases hs : task.status ≠ TaskStatus.PENDING
      · simp [hs]
      · simp only [hs, if_false, ite_false, if_neg (not_not.mpr (not_not.mp hs))]
        have h1 := find_task_set_processing_ne store tid tid2 hne env.tStart
        by_cases hu : env.uploadExists
        · simp only [hu, Bool.not_true, Bool.false_eq_true, if_false]
          cases hl : load_file env.clientInit env.loadOutcome with
          | error e =>
              rw [find_task_mark_failed_ne _ _ _ hne, h1]
          | ok u =>
              cases hx : export_primary_content env.clientInit env.exportOutcome with
              | error e =>
                  rw [find_task_mark_failed_ne _ _ _ hne, h1]
              | ok u =>
                  by_cases ha : env.assetsDirExists
                  · simp only [ha, Bool.not_true, Bool.false_eq_true, if_false]
                    rw [find_task_complete_ne _ _ _ hne, h1]
                  · simp only [Bool.not_eq_true] at ha
                    simp only [ha, Bool.not_false, if_true]
                    rw [find_task_mark_failed_ne _ _ _ hne, h1]
        · simp only [Bool.not_eq_true] at hu
          simp only [hu, Bool.not_false, if_true]
          rw [find_task_mark_failed_ne _ _ _ hne, h1]

/-! ## Directory-size, backoff and trace lemmas -/

theorem foldl_add_size : ∀ (fs : List FSFile) (a : Nat),
    fs.foldl (fun acc f => acc + f.size) a = a + (fs.map FSFile.size).sum
  | [], a => by simp
  | f :: rest, a => by
      rw [List.foldl_cons, foldl_add_size rest (a + f.size), List.map_cons, List.sum_cons]
      omega

/-- The accumulated total of `get_directory_size` is the sum of the sizes of
the regular files under the directory. -/
theorem get_directory_size_eq_sum (fs : FileSystem) (dir : List String) :
    get_directory_size fs dir =
      ((fs.filter (fun f => isUnder dir f.path)).map FSFile.size).sum := by
  rw [get_directory_size, foldl_add_size]
  omega

/-- Closed form of `run_failures`: while the budget lasts, each failure makes
one attempt, the counter counts up by one, and the delays are the successive
doublings `2^(c+1), 2^(c+2), ...`. -/
theorem run_failures_closed : ∀ (k c : Nat), c + k ≤ max_restarts →
    run_failures c k = (c + k, (List.range k).map (fun i => 2 ^ (c + i + 1)))
  | 0, c, _ => by simp [run_failures]
  | k + 1, c, h => by
      have hc : ¬ max_restarts ≤ c := by omega
      have hstep : attempt_restart c false = (c + 1, some (2 ^ (c + 1))) := by
        rw [attempt_restart, if_neg hc]
        rfl
      have ih := run_failures_closed k (c + 1) (by omega)
      rw [run_failures]
      simp only [hstep, ih]
      rw [List.range_succ_eq_map, List.map_cons, List.map_map, Prod.mk.injEq]
      refine ⟨by omega, ?_⟩
      congr 1
      refine List.map_congr_left ?_
      intro a _
      simp only [Function.comp]
      congr 1
      omega

/-- The dispatch-loop trace contains two events per queued entry. -/
theorem worker_trace_length (exportRoot : List String) :
    ∀ (entries : List (String × PipelineEnv)) (store : Store),
      (worker_trace exportRoot store entries).length = 2 * entries.length
  | [], _ => rfl
  | e :: rest, store => by
      rw [worker_trace, List.length_cons, List.length_cons,
        worker_trace_length exportRoot rest (process_task exportRoot e.2 store e.1),
        List.length_cons]
      omega

/-- Position characterization of the dispatch-loop trace: the `i`-th queued
entry's begin event sits at trace position `2*i` and its end event at
`2*i+1`. -/
theorem worker_trace_get (exportRoot : List String) :
    ∀ (entries : List (String × PipelineEnv)) (store : Store) (i : Nat)
      (tid : String) (env : PipelineEnv), entries[i]? = some (tid, env) →
      (worker_trace exportRoot store entries)[2 * i]? = some (QEvent.beginTask tid) ∧
      (worker_trace exportRoot store entries)[2 * i + 1]? = some (QEvent.endTask tid)
  | [], _, i, tid, env, h => by simp at h
  | e :: rest, store, 0, tid, env, h => by
      simp only [List.getElem?_cons_zero, Option.some_inj] at h
      subst h
      refine ⟨rfl, ?_⟩
      have hidx : 2 * 0 + 1 = 1 := rfl
      rw [hidx, worker_trace, List.getElem?_cons_succ, List.getElem?_cons_zero]
  | e :: rest, store, i + 1, tid, env, h => by
      simp only [List.getElem?_cons_succ] at h
      have ih := worker_trace_get exportRoot rest
        (process_task exportRoot e.2 store e.1) i tid env h
      have h2 : 2 * (i + 1) = 2 * i + 1 + 1 := by omega
      rw [worker_trace, h2, List.getElem?_cons_succ, List.getElem?_cons_succ,
        List.getElem?_cons_succ, List.getElem?_cons_succ]
      exact ih

/-- Every prefix of the dispatch-loop trace has at most one more begin event
than end events and never more ends than begins: at most one pipeline
invocation is in flight at any point. -/
theorem worker_trace_balanced (exportRoot : List String) :
    ∀ (entries : List (String × PipelineEnv)) (store : Store) (n : Nat),
      countBegins ((worker_trace exportRoot store entries).take n) ≤
        countEnds ((worker_trace exportRoot store entries).take n) + 1 ∧
      countEnds ((worker_trace exportRoot store entries).take n) ≤
        countBegins ((worker_trace exportRoot store entries).take n)
  | [], _, n => by simp [worker_trace, countBegins, countEnds]
  | e :: rest, store, 0 => by simp [countBegins, countEnds]
  | e :: rest, store, 1 => by
      simp [worker_trace, countBegins, countEnds, List.countP_cons]
  | e :: rest, store, n + 2 => by
      have ih := worker_trace_balanced exportRoot rest
        (process_task exportRoot e.2 store e.1) n
      rw [worker_trace, List.take_succ_cons, List.take_succ_cons]
      simp only [countBegins, countEnds, List.countP_cons] at ih ⊢
      omega

/-! ## Sample data for concrete instantiations -/

/-- A sample pending task row used in concrete instantiations. -/
def sampleTask : Task :=
  { id := "t1"
    status := TaskStatus.PENDING
    created_at := 0
    started_at := none
    completed_at := none
    original_filename := "game.apk"
    upload_path := "/data/uploads/t1/game.apk"
    file_size_bytes := 2048
    file_hash := none
    export_path := none
    export_size_bytes := none
    error_message := none
    retry_count := 0
    user_ip := none }

/-- A sample environment in which every pipeline step succeeds and the Assets
tree holds three files totalling 1200 bytes. -/
def sampleEnv : PipelineEnv :=
  { tStart := 1
    tEnd := 2
    uploadExists := true
    clientInit := true
    loadOutcome := HttpOutcome.status 200
    exportOutcome := HttpOutcome.status 200
    assetsDirExists := true
    fs := [ { path := ["exports", "t1", "Assets", "a.png"], size := 500 },
            { path := ["exports", "t1", "Assets", "b.png"], size := 400 },
            { path := ["exports", "t1", "Assets", "sub", "c.txt"], size := 300 } ]
    resetOutcome := HttpOutcome.status 200 }

/-! ## Claims -/

/-- C1: after the Task Queue Manager's `start()` completes, every task row
whose status was PROCESSING has status FAILED, completed_at set to the
recovery time and error_message equal to the one fixed diagnostic message
("Interrupted by container restart"); rows in any other status are unchanged,
and the whole store effect of `start()` is exactly this per-row sweep. -/
theorem c1_recovery (now : Nat) (store : Store) (tp tq : Task)
    (hp : tp.status = TaskStatus.PROCESSING)
    (hq : tq.status ≠ TaskStatus.PROCESSING) :
    queue_start now store = store.map (recoverTask now) ∧
    recoverTask now tp =
      { tp with
        status := TaskStatus.FAILED
        completed_at := some now
        error_message := some ErrMsg.recovery } ∧
    recoverTask now tq = tq := by
  refine ⟨rfl, ?_, ?_⟩
  · rw [recoverTask, if_pos hp]
  · rw [recoverTask, if_neg hq]

/-- Concrete instantiation of the crash-recovery theorem: a store holding one
PROCESSING row and one PENDING row. -/
theorem c1_recovery_w :
    queue_start 9 [{ sampleTask with status := TaskStatus.PROCESSING }] =
      [{ sampleTask with status := TaskStatus.PROCESSING }].map (recoverTask 9) ∧
    recoverTask 9 { sampleTask with status := TaskStatus.PROCESSING } =
      { sampleTask with
        status := TaskStatus.FAILED
        completed_at := some 9
        error_message := some ErrMsg.recovery } ∧
    recoverTask 9 sampleTask = sampleTask :=
  c1_recovery 9 [{ sampleTask with status := TaskStatus.PROCESSING }]
    { sampleTask with status := TaskStatus.PROCESSING } sampleTask rfl (by decide)

/-- C2: a row that is COMPLETED or FAILED is never mutated again: a pipeline
invocation for any task id (including its own) leaves it unchanged, crash
recovery leaves it unchanged, and a dequeue of the task itself is skipped
with no store write performed at all. -/
theorem c2_terminal_immutable (exportRoot : List String) (env : PipelineEnv)
    (store : Store) (tid tid2 : String) (t : Task) (now : Nat)
    (h1 : find_task store tid = some t)
    (h2 : t.status = TaskStatus.COMPLETED ∨ t.status = TaskStatus.FAILED) :
    find_task (process_task exportRoot env store tid2) tid = some t ∧
    find_task (queue_start now store) tid = some t ∧
    process_task exportRoot env store tid = store := by
  have hnp : t.status ≠ TaskStatus.PENDING := by
    rcases h2 with h | h <;> simp [h]
  have hskip : process_task exportRoot env store tid = store := by
    unfold process_task
    rw [h1]
    simp only [hnp, if_pos (show t.status ≠ TaskStatus.PENDING from hnp)]
  refine ⟨?_, ?_, hskip⟩
  · by_cases he : tid = tid2
    · rw [← he, hskip, h1]
    · rw [process_task_frame exportRoot env store tid tid2 he, h1]
  · have hid : ∀ r : Task, (recoverTask now r).id = r.id := by
      intro r
      unfold recoverTask
      by_cases h : r.status = TaskStatus.PROCESSING <;> simp [h]
    have hmap := find_task_map (recoverTask now) hid tid store
    have hnpr : t.status ≠ TaskStatus.PROCESSING := by
      rcases h2 with h | h <;> simp [h]
    rw [queue_start, recover_interrupted_tasks, hmap, h1, Option.map_some',
      recoverTask, if_neg hnpr]

/-- Concrete instantiation of the terminal-immutability theorem on a store
with one COMPLETED row, probing a pipeline invocation for a different id, a
recovery sweep, and a dequeue of the row itself. -/
theorem c2_terminal_immutable_w :
    find_task
        (process_task ["exports"] sampleEnv
          [{ sampleTask with status := TaskStatus.COMPLETED }] "t2") "t1" =
      some { sampleTask with status := TaskStatus.COMPLETED } ∧
    find_task (queue_start 9 [{ sampleTask with status := TaskStatus.COMPLETED }]) "t1" =
      some { sampleTask with status := TaskStatus.COMPLETED } ∧
    process_task ["exports"] sampleEnv
        [{ sampleTask with status := TaskStatus.COMPLETED }] "t1" =
      [{ sampleTask with status := TaskStatus.COMPLETED }] :=
  c2_terminal_immutable ["exports"] sampleEnv
    [{ sampleTask with status := TaskStatus.COMPLETED }] "t1" "t2"
    { sampleTask with status := TaskStatus.COMPLETED } 9 (by decide) (Or.inl rfl)

/-- C3 counterexample: in self-managed mode, with the child process alive, a
readiness probe answered with HTTP 500 — a non-2xx response, hence a probe
failure under the claim — marks the supervisor unhealthy but does NOT
trigger a restart attempt, contradicting the claim that any probe failure
triggers one in self-managed mode. -/
theorem c3_nonok_status_no_restart :
    health_iter false true (HttpOutcome.status 500) = (false, false) := by decide

/-- C3 (amended): every probe failure (non-2xx response, timeout, connection
refusal, or — in self-managed mode — a dead child process) sets the health
flag to unhealthy; in self-managed mode a timeout, a connection refusal or a
dead child process triggers a restart attempt, but a failing HTTP status
response does not; in external-host mode an unhealthy reading is recorded and
a restart is never attempted; a 200 probe marks healthy with no restart. -/
theorem c3_health_check_actions (procAlive : Bool) (code : Nat)
    (out : HttpOutcome) (hcode : code ≠ 200) :
    (health_iter true procAlive out).2 = false ∧
    health_iter false false out = (false, true) ∧
    health_iter false true HttpOutcome.timeout = (false, true) ∧
    health_iter false true HttpOutcome.requestError = (false, true) ∧
    health_iter false true (HttpOutcome.status code) = (false, false) ∧
    health_iter true true (HttpOutcome.status code) = (false, false) ∧
    health_iter true true HttpOutcome.timeout = (false, false) ∧
    health_iter true true HttpOutcome.requestError = (false, false) ∧
    health_iter false true (HttpOutcome.status 200) = (true, false) ∧
    health_iter true true (HttpOutcome.status 200) = (true, false) := by
  refine ⟨?_, ?_, rfl, rfl, ?_, ?_, rfl, rfl, rfl, rfl⟩
  · cases out with
    | status c =>
        by_cases h : c = 200 <;> cases procAlive <;> simp [health_iter, h]
    | timeout => cases procAlive <;> rfl
    | requestError => cases procAlive <;> rfl
  · cases out <;> rfl
  · simp [health_iter, hcode]
  · simp [health_iter, hcode]

/-- Concrete instantiation of the amended health-check theorem at a 500
probe response. -/
theorem c3_health_check_actions_w :
    health_iter false true (HttpOutcome.status 500) = (false, false) ∧
    health_iter false true HttpOutcome.timeout = (false, true) ∧
    (health_iter true true HttpOutcome.timeout).2 = false :=
  let H := c3_health_check_actions true 500 HttpOutcome.timeout (by decide)
  ⟨H.2.2.2.2.1, H.2.2.1, H.1⟩

/-- C4: starting from a reset counter, K ≤ 5 consecutive health-check
failures whose restarts all fail produce exactly K restart attempts, whose
backoff delays are the successive doublings 2, 4, 8, ... (hence strictly
increasing); once the maximum of 5 is exhausted a further failure attempts no
restart at all; and the counter returns to zero only through an attempt that
succeeds. -/
theorem c4_restart_backoff (K : Nat) (hK : K ≤ max_restarts) :
    (run_failures 0 K).2.length = K ∧
    (run_failures 0 K).2 = (List.range K).map (fun i => 2 ^ (i + 1)) ∧
    (run_failures 0 K).2.Pairwise (· < ·) ∧
    (run_failures 0 max_restarts).1 = max_restarts ∧
    attempt_restart (run_failures 0 max_restarts).1 false = (max_restarts, none) ∧
    (∀ c s, (attempt_restart c s).1 = 0 → s = true ∧ (attempt_restart c s).2 ≠ none) := by
  have hclosed := run_failures_closed K 0 (by omega)
  have hfull := run_failures_closed max_restarts 0 (by omega)
  have hform : (run_failures 0 K).2 = (List.range K).map (fun i => 2 ^ (i + 1)) := by
    rw [hclosed]
    refine List.map_congr_left ?_
    intro a _
    congr 1
    omega
  have hcount : (run_failures 0 max_restarts).1 = max_restarts := by
    rw [hfull]
    omega
  refine ⟨?_, hform, ?_, hcount, ?_, ?_⟩
  · rw [hform]
    simp
  · rw [hform]
    refine List.Pairwise.map _ ?_ (List.pairwise_lt_range K)
    intro a b hab
    exact Nat.pow_lt_pow_right Nat.one_lt_two (by omega)
  · rw [hcount, attempt_restart, if_pos (le_refl max_restarts)]
  · intro c s h
    rw [attempt_restart] at h ⊢
    by_cases hc : max_restarts ≤ c
    · rw [if_pos hc] at h
      simp only at h
      exact absurd h (by rw [max_restarts] at hc; omega)
    · rw [if_neg hc] at h ⊢
      cases s with
      | true => simp
      | false =>
          simp only [Bool.false_eq_true, if_neg (by simp : ¬False)] at h
          exact absurd h (by omega)

/-- Concrete instantiation of the backoff theorem: three consecutive
failures from a reset counter. -/
theorem c4_restart_backoff_w :
    (run_failures 0 3).2.length = 3 ∧
    (run_failures 0 3).2 = (List.range 3).map (fun i => 2 ^ (i + 1)) ∧
    attempt_restart (run_failures 0 max_restarts).1 false = (max_restarts, none) :=
  let H := c4_restart_backoff 3 (by decide)
  ⟨H.1, H.2.1, H.2.2.2.2.1⟩

/-- C5: the fault taxonomy of `load_file`: when the HTTP layer cannot reach
the worker (transport-level request error, or no client at all) the raised
exception is the `AssetRipperConnectionError` class — the spec's connection
fault; when the worker responds with a failing (non-2xx) status the raised
exception carries the worker's status code and classifies as the spec's
process fault with that code; when the load timeout expires the raised
exception carries the load-timeout message and classifies as the spec's
timeout fault; on a 2xx response `load_file` returns normally. -/
theorem c5_load_file_faults (cgood cbad : Nat) (out : HttpOutcome)
    (hg : is2xx cgood = true) (hb : is2xx cbad = false) :
    load_file true HttpOutcome.requestError =
      Except.error (ARError.connRequestFailed WorkerOp.loadOp) ∧
    spec_fault_kind (ARError.connRequestFailed WorkerOp.loadOp) =
      FaultKind.connectionFault ∧
    load_file false out = Except.error ARError.connClientNotInitialized ∧
    spec_fault_kind ARError.connClientNotInitialized = FaultKind.connectionFault ∧
    load_file true (HttpOutcome.status cbad) =
      Except.error (ARError.baseStatus WorkerOp.loadOp cbad) ∧
    spec_fault_kind (ARError.baseStatus WorkerOp.loadOp cbad) =
      FaultKind.processFault cbad ∧
    load_file true HttpOutcome.timeout =
      Except.error (ARError.baseTimeout WorkerOp.loadOp) ∧
    spec_fault_kind (ARError.baseTimeout WorkerOp.loadOp) = FaultKind.timeoutFault ∧
    load_file true (HttpOutcome.status cgood) = Except.ok () := by
  refine ⟨rfl, rfl, ?_, rfl, ?_, rfl, rfl, rfl, ?_⟩
  · cases out <;> rfl
  · simp [load_file, hb]
  · simp [load_file, hg]

/-- Concrete instantiation of the load-file fault taxonomy at a 200 success
and a 500 rejection. -/
theorem c5_load_file_faults_w :
    load_file true (HttpOutcome.status 500) =
      Except.error (ARError.baseStatus WorkerOp.loadOp 500) ∧
    spec_fault_kind (ARError.baseStatus WorkerOp.loadOp 500) =
      FaultKind.processFault 500 ∧
    load_file true (HttpOutcome.status 200) = Except.ok () ∧
    load_file false HttpOutcome.timeout = Except.error ARError.connClientNotInitialized :=
  let H := c5_load_file_faults 200 500 HttpOutcome.timeout (by decide) (by decide)
  ⟨H.2.2.2.2.1, H.2.2.2.2.2.1, H.2.2.2.2.2.2.2.2, H.2.2.1⟩

/-- C6: a PENDING task whose upload file exists, whose load and export calls
both succeed and whose expected Assets subdirectory exists ends COMPLETED,
with completed_at stamped, started_at stamped by the PROCESSING transition,
the export path persisted as the task's Assets directory, export_size_bytes
equal to the recursive sum of the sizes of the regular files under that
directory, and the error message cleared. -/
theorem c6_success_postcondition (exportRoot : List String) (env : PipelineEnv)
    (store : Store) (tid : String) (t : Task)
    (h1 : find_task store tid = some t)
    (h2 : t.status = TaskStatus.PENDING)
    (h3 : env.uploadExists = true)
    (h4 : load_file env.clientInit env.loadOutcome = Except.ok ())
    (h5 : export_primary_content env.clientInit env.exportOutcome = Except.ok ())
    (h6 : env.assetsDirExists = true) :
    find_task (process_task exportRoot env store tid) tid =
      some { t with
        status := TaskStatus.COMPLETED
        started_at := some env.tStart
        completed_at := some env.tEnd
        export_path := some (get_task_assets_dir exportRoot tid)
        export_size_bytes :=
          some (get_directory_size env.fs (get_task_assets_dir exportRoot tid))
        error_message := none } ∧
    get_directory_size env.fs (get_task_assets_dir exportRoot tid) =
      ((env.fs.filter
          (fun f => isUnder (get_task_assets_dir exportRoot tid) f.path)).map
        FSFile.size).sum := by
  refine ⟨?_, get_directory_size_eq_sum env.fs _⟩
  unfold process_task
  rw [h1]
  simp only [h2, h3, h4, h5, h6, ne_eq, not_true_eq_false, if_false,
    Bool.not_true, Bool.false_eq_true]
  rw [find_task_complete_self, find_task_set_processing_self, h1]
  rfl

/-- Concrete instantiation of the success postcondition: the sample pending
task with three exported files of sizes 500, 400 and 300 bytes. -/
theorem c6_success_postcondition_w :
    find_task (process_task ["exports"] sampleEnv [sampleTask] "t1") "t1" =
      some { sampleTask with
        status := TaskStatus.COMPLETED
        started_at := some 1
        completed_at := some 2
        export_path := some (get_task_assets_dir ["exports"] "t1")
        export_size_bytes :=
          some (get_directory_size sampleEnv.fs (get_task_assets_dir ["exports"] "t1"))
        error_message := none } ∧
    get_directory_size sampleEnv.fs (get_task_assets_dir ["exports"] "t1") = 1200 :=
  let H := c6_success_postcondition ["exports"] sampleEnv [sampleTask] "t1" sampleTask
    (by decide) rfl rfl rfl rfl rfl
  ⟨H.1, by decide⟩

/-- C7: FIFO ordering of the dispatch loop: for the `i`-th and `j`-th queued
entries with `i < j`, the `i`-th entry's pipeline invocation begins (trace
position `2i`) and ends (position `2i+1`) strictly before the `j`-th entry's
invocation begins (position `2j`); and every prefix of the trace holds at
most one more begin than ends — at most one task is being processed at any
time. -/
theorem c7_fifo (exportRoot : List String) (store : Store)
    (entries : List (String × PipelineEnv)) (i j : Nat) (a b : String)
    (ea eb : PipelineEnv)
    (hi : entries[i]? = some (a, ea)) (hj : entries[j]? = some (b, eb))
    (hij : i < j) :
    (worker_trace exportRoot store entries)[2 * i]? = some (QEvent.beginTask a) ∧
    (worker_trace exportRoot store entries)[2 * i + 1]? = some (QEvent.endTask a) ∧
    (worker_trace exportRoot store entries)[2 * j]? = some (QEvent.beginTask b) ∧
    2 * i + 1 < 2 * j ∧
    (∀ n : Nat,
      countBegins ((worker_trace exportRoot store entries).take n) ≤
        countEnds ((worker_trace exportRoot store entries).take n) + 1) := by
  obtain ⟨hbi, hei⟩ := worker_trace_get exportRoot entries store i a ea hi
  obtain ⟨hbj, _⟩ := worker_trace_get exportRoot entries store j b eb hj
  exact ⟨hbi, hei, hbj, by omega,
    fun n => (worker_trace_balanced exportRoot entries store n).1⟩

/-- Concrete instantiation of the FIFO theorem on a two-entry queue. -/
theorem c7_fifo_w :
    (worker_trace ["exports"] [] [("A", sampleEnv), ("B", sampleEnv)])[0]? =
      some (QEvent.beginTask "A") ∧
    (worker_trace ["exports"] [] [("A", sampleEnv), ("B", sampleEnv)])[1]? =
      some (QEvent.endTask "A") ∧
    (worker_trace ["exports"] [] [("A", sampleEnv), ("B", sampleEnv)])[2]? =
      some (QEvent.beginTask "B") ∧
    countBegins ((worker_trace ["exports"] [] [("A", sampleEnv), ("B", sampleEnv)]).take 1) ≤
      countEnds ((worker_trace ["exports"] [] [("A", sampleEnv), ("B", sampleEnv)]).take 1) + 1 :=
  let H := c7_fifo ["exports"] [] [("A", sampleEnv), ("B", sampleEnv)] 0 1 "A" "B"
    sampleEnv sampleEnv rfl rfl (by decide)
  ⟨H.1, H.2.1, H.2.2.1, H.2.2.2.2 1⟩

/-- C8 counterexample: with the manager shut down (`_running = false`),
`add_task` still appends the identifier to the queue — the call does not
fail and is not a no-op, so the queue state changes. -/
theorem c8_enqueue_on_shutdown_not_noop :
    add_task { queue := [], running := false, current_task_id := none } "t1" ≠
      { queue := [], running := false, current_task_id := none } := by
  decide

/-- C8 (amended): `add_task` appends the identifier to the tail of the
unbounded FIFO and always succeeds without blocking, regardless of the
running flag: it has no shutdown failure path and no other effect on the
manager state (an identifier enqueued after `stop()` is simply never
dequeued). -/
theorem c8_enqueue_always_appends (s : QueueState) (task_id : String) :
    (add_task s task_id).queue = s.queue ++ [task_id] ∧
    (add_task s task_id).queue.getLast? = some task_id ∧
    (add_task s task_id).queue.length = s.queue.length + 1 ∧
    (add_task s task_id).queue.take s.queue.length = s.queue ∧
    (add_task s task_id).running = s.running ∧
    (add_task s task_id).current_task_id = s.current_task_id := by
  refine ⟨rfl, ?_, by simp [add_task], by simp [add_task], rfl, rfl⟩
  · rw [add_task]
    exact List.getLast?_concat _

/-- C9 counterexample: a `reset()` call made while the HTTP client is not
initialized (as after `stop()` or before `start()`) raises
`AssetRipperConnectionError` instead of logging the failure, so an exception
does propagate to the caller on that invocation. -/
theorem c9_reset_raises_uninitialized :
    reset false (HttpOutcome.status 200) =
      Except.error ARError.connClientNotInitialized ∧
    reset false (HttpOutcome.status 200) ≠ Except.ok () :=
  ⟨rfl, fun h => Except.noConfusion h⟩

/-- C9 (amended): whenever the HTTP client is initialized — which holds
throughout normal operation between the supervisor's `start()` and `stop()` —
`reset()` never raises: every failure of the `POST /Reset` call is caught and
logged, so no exception propagates to the caller whatever the call's
outcome; only an invocation with the client uninitialized raises (a
connection error). -/
theorem c9_reset_no_raise_when_initialized (outcome : HttpOutcome) :
    reset true outcome = Except.ok () := by
  cases outcome <;> rfl

/-- C10: `_mark_task_failed` performs one update keyed by the task id that
replaces exactly the status, completed_at and error_message fields of the
matching row — every other field of that row (timestamps of creation and
start, the file facts, the export facts, retry_count, user_ip) is inherited
unchanged — and leaves every row with a different id untouched; the store
keeps its length. -/
theorem c10_mark_failed_frame (store : Store) (tid : String) (msg : ErrMsg)
    (now : Nat) (i j : Nat) (ti tj : Task)
    (hi : store[i]? = some ti) (hj : store[j]? = some tj)
    (hti : ti.id = tid) (htj : tj.id ≠ tid) :
    (mark_task_failed store tid msg now).length = store.length ∧
    (mark_task_failed store tid msg now)[j]? = some tj ∧
    (mark_task_failed store tid msg now)[i]? =
      some { ti with
        status := TaskStatus.FAILED
        completed_at := some now
        error_message := some msg } := by
  refine ⟨by simp [mark_task_failed, update_where], ?_, ?_⟩
  · rw [mark_task_failed, update_where, List.getElem?_map, hj, Option.map_some']
    rw [if_neg (by simp [htj])]
  · rw [mark_task_failed, update_where, List.getElem?_map, hi, Option.map_some']
    rw [if_pos (beq_iff_eq.mpr hti)]

/-- Concrete instantiation of the failure-write frame theorem on a store
with one matching and one non-matching row. -/
theorem c10_mark_failed_frame_w :
    (mark_task_failed [sampleTask, { sampleTask with id := "t2" }] "t1"
        ErrMsg.assetsMissing 5).length = 2 ∧
    (mark_task_failed [sampleTask, { sampleTask with id := "t2" }] "t1"
        ErrMsg.assetsMissing 5)[1]? = some { sampleTask with id := "t2" } ∧
    (mark_task_failed [sampleTask, { sampleTask with id := "t2" }] "t1"
        ErrMsg.assetsMissing 5)[0]? =
      some { sampleTask with
        status := TaskStatus.FAILED
        completed_at := some 5
        error_message := some ErrMsg.assetsMissing } :=
  c10_mark_failed_frame [sampleTask, { sampleTask with id := "t2" }] "t1"
    ErrMsg.assetsMissing 5 0 1 sampleTask { sampleTask with id := "t2" }
    rfl rfl rfl (by decide)

end AssetRipperServer
